import Mathlib

/-!
Shallow embedding of `src/main.py` (BMO assistant): an OpenAI chat +
speech-to-text assistant with a CLI loop and a Tk GUI front-end.

Modelling conventions:
* External effects (presence of `arecord`, the recorder's exit status, the
  transcription service, the chat service) are an `Env` record fixing the
  outcome of each external call for one request.
* Python exceptions are the inductive `PyExc`; a function that may raise
  returns `Except PyExc α`.  An exception that escapes `main` terminates the
  Python process with a non-zero status (`pythonExitCode`).
* Side effects are traced: `Event` records process/network calls and temp-file
  operations, `UIEvent` records Tk widget mutations (in the order the code
  performs them / schedules them onto the Tk event thread via `root.after`).
* The temporary-file state is `FS`, the list of existing paths.
* Python `str.strip` is `pyStrip`, `str.lower` is `pyLower`, both executable
  over the character list so that concrete runs evaluate.
-/

namespace BMO

/-- Python `str.strip()`: removes whitespace from both ends. -/
def pyStrip (s : String) : String :=
  ⟨((s.data.dropWhile Char.isWhitespace).reverse.dropWhile Char.isWhitespace).reverse⟩

/-- Python `str.lower()`. -/
def pyLower (s : String) : String :=
  ⟨s.data.map Char.toLower⟩

/-- Python exceptions raised by the code paths of `main.py`. -/
inductive PyExc where
  /-- `raise RuntimeError(msg)` -/
  | runtimeError (msg : String)
  /-- `subprocess.CalledProcessError` from `subprocess.run(..., check=True)` -/
  | calledProcessError (returncode : Nat) (cmd : List String)
  /-- an exception raised by an OpenAI API call (network/service failure) -/
  | apiError (msg : String)
  /-- `EOFError` raised by `input()` at end of input -/
  | eofError
  /-- `FileNotFoundError` from `Path.unlink` without `missing_ok` -/
  | fileNotFoundError (path : String)
  /-- `IndexError` from `response.choices[0]` on an empty list -/
  | indexError
deriving DecidableEq, Repr

/-- `str(exc)`, as interpolated by `f"Error: \x7bexc\x7d"`. -/
def PyExc.str : PyExc → String
  | .runtimeError msg => msg
  | .calledProcessError rc cmd =>
      "Command " ++ String.intercalate " " cmd ++
        " returned non-zero exit status " ++ toString rc ++ "."
  | .apiError msg => msg
  | .eofError => "EOF when reading a line"
  | .fileNotFoundError p => "No such file or directory: " ++ p
  | .indexError => "list index out of range"

/-- One chat message (`role` and `content` fields of the message params). -/
structure Message where
  role : String
  content : String
deriving DecidableEq, Repr

/-- Traced external effects: process launches, network calls, temp files. -/
inductive Event where
  /-- `tempfile.NamedTemporaryFile(suffix=".wav", delete=False)` creating `path` -/
  | createTempFile (path : String)
  /-- `subprocess.run([...arecord argv...], check=True)` -/
  | runArecord (args : List String)
  /-- `client.audio.transcriptions.create(...)` (a network call) -/
  | callTranscription
  /-- `client.chat.completions.create(model=..., messages=...)` (a network call) -/
  | callChat (messages : List Message)
  /-- `temp_path.unlink(missing_ok=True)` -/
  | unlinkTemp (path : String)
deriving DecidableEq, Repr

/-- The file-system fragment the program touches: the set of existing paths. -/
abbrev FS := List String

/-- Outcomes of every external collaborator, fixed for one request. -/
structure Env where
  /-- result of `shutil.which("arecord")` -/
  whichArecord : Option String
  /-- exit status of the `arecord` subprocess (0 = success) -/
  arecordExit : Nat
  /-- `transcript.text` returned by the transcription endpoint, or the
  exception the call raises -/
  transcription : Except PyExc String
  /-- `response.choices` contents (`message.content` of each choice, `none`
  when the service returns no content) returned by the chat endpoint, or the
  exception the call raises -/
  chatResult : Except PyExc (List (Option String))
  /-- the fresh name chosen by `tempfile.NamedTemporaryFile` -/
  tempName : String
  /-- `RECORD_SECONDS` configuration value (default 5) -/
  recordSeconds : Nat
deriving Repr

/-- `Path.unlink(missing_ok=missingOk)`: removes `p` from the file system;
when `p` does not exist it is a no-op if `missingOk`, else it raises
`FileNotFoundError`. -/
def pathUnlink (missingOk : Bool) (p : String) (fs : FS) : Except PyExc FS :=
  if p ∈ fs then .ok (fs.erase p)
  else if missingOk then .ok fs
  else .error (.fileNotFoundError p)

/-- The message of the `RuntimeError` raised when `arecord` is absent;
it carries the install guidance. -/
def arecordMissingMsg : String :=
  "`arecord` not found. Install with: sudo apt install alsa-utils"

/-- The fixed argv of the `arecord` subprocess call. -/
def arecordArgs (durationSeconds : Nat) (outputPath : String) : List String :=
  ["arecord", "-d", toString durationSeconds, "-f", "S16_LE", "-r", "16000",
   "-c", "1", outputPath]

/-- `record_audio_wav(output_path, duration_seconds)`: raises `RuntimeError`
when `shutil.which("arecord")` is `None`, otherwise runs the recorder with
`check=True`, which raises `CalledProcessError` on a non-zero exit status. -/
def record_audio_wav (env : Env) (outputPath : String) (durationSeconds : Nat) :
    Except PyExc Unit × List Event :=
  match env.whichArecord with
  | none => (.error (.runtimeError arecordMissingMsg), [])
  | some _ =>
    let args := arecordArgs durationSeconds outputPath
    if env.arecordExit = 0 then (.ok (), [.runArecord args])
    else (.error (.calledProcessError env.arecordExit args), [.runArecord args])

/-- The fixed system-persona content of `ask_chatbot`. -/
def systemPersona : String :=
  "You are BMO, a friendly Raspberry Pi assistant. " ++
    "Keep answers concise and practical."

/-- The two-message list `[system_message, user_message]` sent by
`ask_chatbot`. -/
def chatMessages (prompt : String) : List Message :=
  [⟨"system", systemPersona⟩, ⟨"user", prompt⟩]

/-- `BMOAssistant.ask_chatbot(prompt)`: one `chat.completions.create` call
with the system persona and the user prompt; returns
`(response.choices[0].message.content or "").strip()`. -/
def ask_chatbot (env : Env) (prompt : String) :
    Except PyExc String × List Event :=
  let messages := chatMessages prompt
  match env.chatResult with
  | .error e => (.error e, [.callChat messages])
  | .ok [] => (.error .indexError, [.callChat messages])
  | .ok (c :: _) => (.ok (pyStrip (c.getD "")), [.callChat messages])

/-- `BMOAssistant.transcribe_microphone(duration_seconds)`: creates one named
temporary file, then in a `try` block records into it and sends it to the
transcription endpoint, returning `transcript.text.strip()`; the `finally`
block always runs `temp_path.unlink(missing_ok=True)` exactly once. -/
def transcribe_microphone (env : Env) (durationSeconds : Nat) (fs : FS) :
    Except PyExc String × List Event × FS :=
  let tempPath := env.tempName
  let fs1 : FS := tempPath :: fs
  let body : Except PyExc String × List Event :=
    match record_audio_wav env tempPath durationSeconds with
    | (.error e, evs) => (.error e, evs)
    | (.ok _, evs) =>
      match env.transcription with
      | .error e => (.error e, evs ++ [.callTranscription])
      | .ok t => (.ok (pyStrip t), evs ++ [.callTranscription])
  match pathUnlink true tempPath fs1 with
  | .ok fs2 =>
      (body.1, Event.createTempFile tempPath :: body.2 ++ [.unlinkTemp tempPath], fs2)
  | .error e =>
      (.error e, Event.createTempFile tempPath :: body.2 ++ [.unlinkTemp tempPath], fs1)

/-- The exit keywords of the CLI text loop. -/
def exitKeywords : List String := ["quit", "exit", "q"]

/-- The `while True` text loop of `run_cli` mode `"1"`, reading from a list of
remaining stdin lines: strips the line, returns on an exit keyword, skips blank
lines, otherwise asks the chatbot; `input()` on exhausted input raises
`EOFError` (uncaught in the source). -/
def cliTextLoop (env : Env) : List String → Except PyExc Unit × List Event
  | [] => (.error .eofError, [])
  | line :: rest =>
    let userInput := pyStrip line
    if pyLower userInput ∈ exitKeywords then (.ok (), [])
    else if userInput = "" then cliTextLoop env rest
    else
      match ask_chatbot env userInput with
      | (.error e, evs) => (.error e, evs)
      | (.ok _, evs) =>
        match cliTextLoop env rest with
        | (r, evs2) => (r, evs ++ evs2)

/-- The voice path of `run_cli` mode `"2"` (and the core of the GUI `speak`
worker): `transcribe_microphone()` then `ask_chatbot(spoken_text)`, with no
handler in between. -/
def cliVoice (env : Env) (fs : FS) : Except PyExc String × List Event × FS :=
  match transcribe_microphone env env.recordSeconds fs with
  | (.error e, evs, fs1) => (.error e, evs, fs1)
  | (.ok spoken, evs, fs1) =>
    match ask_chatbot env spoken with
    | (.error e, evs2) => (.error e, evs ++ evs2, fs1)
    | (.ok reply, evs2) => (.ok reply, evs ++ evs2, fs1)

/-- `run_cli(assistant)`: reads the mode choice (EOF raises), runs the text
loop on `"1"`, one voice request on `"2"`, and just prints on anything else.
Errors of either mode are not caught anywhere in `run_cli`. -/
def run_cli (env : Env) (stdinLines : List String) (fs : FS) :
    Except PyExc Unit × List Event × FS :=
  match stdinLines with
  | [] => (.error .eofError, [], fs)
  | choiceLine :: rest =>
    let choice := pyStrip choiceLine
    if choice = "1" then
      match cliTextLoop env rest with
      | (r, evs) => (r, evs, fs)
    else if choice = "2" then
      match cliVoice env fs with
      | (.error e, evs, fs1) => (.error e, evs, fs1)
      | (.ok _, evs, fs1) => (.ok (), evs, fs1)
    else (.ok (), [], fs)

/-- The process exit status of `main()`: `0` on normal return, non-zero (`1`)
when an exception escapes uncaught. -/
def pythonExitCode (r : Except PyExc Unit) : Nat :=
  match r with
  | .ok _ => 0
  | .error _ => 1

/-! ## GUI front-end (`run_gui`) -/

/-- Tk widget mutations, in the order the code performs them (worker-thread
mutations are scheduled in order onto the event thread via `root.after(0, …)`). -/
inductive UIEvent where
  /-- `append_line(text)` into the output log -/
  | appendLine (text : String)
  /-- `user_entry.delete(0, tk.END)` -/
  | clearEntry
  /-- `set_enabled(b)`: configures `user_entry`, `send_button` and
  `speak_button` all to `NORMAL`/`DISABLED` -/
  | setEnabled (enabled : Bool)
deriving DecidableEq, Repr

/-- The enabled state of the three interactive controls. -/
structure UIState where
  entryEnabled : Bool
  sendEnabled : Bool
  speakEnabled : Bool
deriving DecidableEq, Repr

def UIState.allEnabled : UIState := ⟨true, true, true⟩

def UIState.allDisabled : UIState := ⟨false, false, false⟩

/-- Effect of one `UIEvent` on the control state: `set_enabled` toggles all
three controls together, the other events leave them unchanged. -/
def applyUIEvent (s : UIState) : UIEvent → UIState
  | .setEnabled b => ⟨b, b, b⟩
  | _ => s

/-- Folding a UI trace over the control state. -/
def runUI (s : UIState) (tr : List UIEvent) : UIState :=
  tr.foldl applyUIEvent s

/-- Whether an event is a `set_enabled` call. -/
def isSetEnabledEvent : UIEvent → Bool
  | .setEnabled _ => true
  | _ => false

/-- `send_text()` and its worker thread: returns on a blank entry; otherwise
logs the user line, clears the entry, disables the controls, asks the chatbot
in a worker whose `try`/`except` logs the reply or the error and whose
`finally` re-enables the controls. -/
def sendTextAction (env : Env) (entryText : String) :
    List UIEvent × List Event :=
  let text := pyStrip entryText
  if text = "" then ([], [])
  else
    let workerUI : List UIEvent :=
      match ask_chatbot env text with
      | (.ok reply, _) => [.appendLine ("BMO: " ++ reply ++ "\n")]
      | (.error e, _) => [.appendLine ("Error: " ++ e.str ++ "\n")]
    ([UIEvent.appendLine ("You: " ++ text), .clearEntry, .setEnabled false] ++
       workerUI ++ [.setEnabled true],
     (ask_chatbot env text).2)

/-- `speak()` and its worker thread: disables the controls, logs the recording
notice, then in the worker transcribes, logs the transcript, asks the chatbot
and logs the reply; any exception is logged by the `except` clause and the
`finally` clause re-enables the controls. -/
def speakAction (env : Env) (fs : FS) :
    List UIEvent × List Event × FS :=
  let pre : List UIEvent := [.setEnabled false, .appendLine "BMO: Recording..."]
  match transcribe_microphone env env.recordSeconds fs with
  | (.error e, evs, fs1) =>
      (pre ++ [.appendLine ("Error: " ++ e.str ++ "\n"), .setEnabled true],
       evs, fs1)
  | (.ok spoken, evs, fs1) =>
      let mid : List UIEvent := [.appendLine ("You (speech): " ++ spoken)]
      match ask_chatbot env spoken with
      | (.error e, evs2) =>
          (pre ++ mid ++ [.appendLine ("Error: " ++ e.str ++ "\n"), .setEnabled true],
           evs ++ evs2, fs1)
      | (.ok reply, evs2) =>
          (pre ++ mid ++ [.appendLine ("BMO: " ++ reply ++ "\n"), .setEnabled true],
           evs ++ evs2, fs1)

/-! ## Trace observations -/

/-- Whether an `Event` is a chat-completion call. -/
def isChatEvent : Event → Bool
  | .callChat _ => true
  | _ => false

/-- Whether an `Event` is a network call (transcription or chat). -/
def isNetworkEvent : Event → Bool
  | .callTranscription => true
  | .callChat _ => true
  | _ => false

/-- Whether an `Event` creates the temporary file. -/
def isCreateEvent : Event → Bool
  | .createTempFile _ => true
  | _ => false

/-- Whether an `Event` deletes the temporary file. -/
def isUnlinkEvent : Event → Bool
  | .unlinkTemp _ => true
  | _ => false

/-- Whether an `Event` launches the recorder subprocess. -/
def isArecordEvent : Event → Bool
  | .runArecord _ => true
  | _ => false

/-- Whether an `Event` is a transcription call. -/
def isTranscriptionEvent : Event → Bool
  | .callTranscription => true
  | _ => false

/-! ## Concrete environments used to instantiate the theorems -/

/-- Every external collaborator succeeds. -/
def envAllOk : Env :=
  { whichArecord := some "/usr/bin/arecord", arecordExit := 0,
    transcription := .ok " hello there ", chatResult := .ok [some " hi "],
    tempName := "/tmp/bmo1.wav", recordSeconds := 5 }

/-- `shutil.which("arecord")` returns `None`. -/
def envNoArecord : Env :=
  { whichArecord := none, arecordExit := 0,
    transcription := .ok "x", chatResult := .ok [some "y"],
    tempName := "/tmp/bmo2.wav", recordSeconds := 5 }

/-- The transcription endpoint raises an API error. -/
def envTranscribeFail : Env :=
  { whichArecord := some "/usr/bin/arecord", arecordExit := 0,
    transcription := .error (.apiError "boom"), chatResult := .ok [some "y"],
    tempName := "/tmp/bmo3.wav", recordSeconds := 5 }

/-- The chat endpoint raises an API error. -/
def envChatFail : Env :=
  { whichArecord := some "/usr/bin/arecord", arecordExit := 0,
    transcription := .ok "hi", chatResult := .error (.apiError "boom"),
    tempName := "/tmp/bmo4.wav", recordSeconds := 5 }

/-- Transcription succeeds with whitespace only. -/
def envEmptyTranscript : Env :=
  { whichArecord := some "/usr/bin/arecord", arecordExit := 0,
    transcription := .ok "   ", chatResult := .ok [some "ok"],
    tempName := "/tmp/bmo5.wav", recordSeconds := 5 }

/-- The temp-file contract of one voice request: exactly one creation event,
exactly one deletion event, creation first and deletion last, the file system
restored to its initial state (so the file is gone when the request completes,
whatever its outcome), and a further `unlink(missing_ok=True)` of the
already-removed file succeeds rather than raising. -/
def tempFileContract (env : Env) (d : Nat) (fs : FS) : Prop :=
  (transcribe_microphone env d fs).2.1.countP isCreateEvent = 1 ∧
  (transcribe_microphone env d fs).2.1.countP isUnlinkEvent = 1 ∧
  (transcribe_microphone env d fs).2.1.head? =
    some (.createTempFile env.tempName) ∧
  (transcribe_microphone env d fs).2.1.getLast? =
    some (.unlinkTemp env.tempName) ∧
  (transcribe_microphone env d fs).2.2 = fs ∧
  env.tempName ∉ (transcribe_microphone env d fs).2.2 ∧
  pathUnlink true env.tempName (transcribe_microphone env d fs).2.2 =
    .ok (transcribe_microphone env d fs).2.2

/-- What C3 guarantees when transcription raises `e`: both voice paths fail
with exactly that exception and neither ever issues a chat call. -/
def transcriptionFailContract (env : Env) (fs : FS) (e : PyExc) : Prop :=
  (cliVoice env fs).1 = .error e ∧
  (cliVoice env fs).2.1.countP isChatEvent = 0 ∧
  (speakAction env fs).2.1.countP isChatEvent = 0

/-- What C4 guarantees when `arecord` is not discoverable: both voice paths
fail with the `RuntimeError` carrying the install guidance, and no network
call (transcription or chat) is made. -/
def dependencyMissingContract (env : Env) (fs : FS) : Prop :=
  (cliVoice env fs).1 = .error (.runtimeError arecordMissingMsg) ∧
  (cliVoice env fs).2.1.countP isNetworkEvent = 0 ∧
  (speakAction env fs).2.1.countP isNetworkEvent = 0 ∧
  arecordMissingMsg = "`arecord` not found. Install with: sudo apt install alsa-utils"

/-- The enable/disable bracketing of one GUI request: some preparatory events,
then `set_enabled(False)`, then the in-flight events (none of which touches
the control state), then `set_enabled(True)` as the very last event; starting
from all-enabled controls, all three controls are disabled at every point
while the request is in flight and all three are re-enabled when it
settles. -/
def busyBracket (tr : List UIEvent) : Prop :=
  ∃ pre mid,
    tr = pre ++ UIEvent.setEnabled false :: (mid ++ [UIEvent.setEnabled true]) ∧
    (∀ e ∈ pre, isSetEnabledEvent e = false) ∧
    (∀ e ∈ mid, isSetEnabledEvent e = false) ∧
    (∀ k, k ≤ mid.length →
       runUI UIState.allEnabled (tr.take (pre.length + 1 + k)) =
         UIState.allDisabled) ∧
    runUI UIState.allEnabled tr = UIState.allEnabled

/-- The surfaced pipeline error is exactly the exception the failing call
raised — one of the recorder errors, the transcription exception, or the chat
exception (or the `IndexError` of an empty choice list) — with no wrapper
added around it. -/
def errorUnchanged (env : Env) (e : PyExc) : Prop :=
  (env.whichArecord = none ∧ e = .runtimeError arecordMissingMsg) ∨
  e = .calledProcessError env.arecordExit
        (arecordArgs env.recordSeconds env.tempName) ∨
  env.transcription = .error e ∨
  env.chatResult = .error e ∨
  (env.chatResult = .ok [] ∧ e = .indexError)

/-- No stage of the voice pipeline runs more than once, and any error the
pipeline surfaces is the unchanged underlying exception. -/
def noRetryUnchangedError (env : Env) (fs : FS) : Prop :=
  (cliVoice env fs).2.1.countP isArecordEvent ≤ 1 ∧
  (cliVoice env fs).2.1.countP isTranscriptionEvent ≤ 1 ∧
  (cliVoice env fs).2.1.countP isChatEvent ≤ 1 ∧
  ∀ e, (cliVoice env fs).1 = .error e → errorUnchanged env e

/-! ## Characterisation of `transcribe_microphone` -/

/-- With `arecord` absent, the request raises the `RuntimeError` and only the
temp-file events happen; the file system is restored. -/
lemma tm_no_arecord (env : Env) (d : Nat) (fs : FS)
    (h : env.whichArecord = none) :
    transcribe_microphone env d fs =
      (.error (.runtimeError arecordMissingMsg),
       [.createTempFile env.tempName, .unlinkTemp env.tempName], fs) := by
  simp [transcribe_microphone, record_audio_wav, pathUnlink, h,
    List.erase_cons_head]

/-- With `arecord` present but exiting non-zero, the request raises
`CalledProcessError`; no network call happens and the file system is
restored. -/
lemma tm_capture_fail (env : Env) (d : Nat) (fs : FS) (p : String)
    (h : env.whichArecord = some p) (h2 : env.arecordExit ≠ 0) :
    transcribe_microphone env d fs =
      (.error (.calledProcessError env.arecordExit (arecordArgs d env.tempName)),
       [.createTempFile env.tempName, .runArecord (arecordArgs d env.tempName),
        .unlinkTemp env.tempName], fs) := by
  simp [transcribe_microphone, record_audio_wav, pathUnlink, h, h2,
    List.erase_cons_head]

/-- With recording succeeding and transcription raising `e`, the request
raises `e`; the file system is restored. -/
lemma tm_transcription_fail (env : Env) (d : Nat) (fs : FS) (p : String)
    (e : PyExc) (h : env.whichArecord = some p) (h2 : env.arecordExit = 0)
    (h3 : env.transcription = .error e) :
    transcribe_microphone env d fs =
      (.error e,
       [.createTempFile env.tempName, .runArecord (arecordArgs d env.tempName),
        .callTranscription, .unlinkTemp env.tempName], fs) := by
  simp [transcribe_microphone, record_audio_wav, pathUnlink, h, h2, h3,
    List.erase_cons_head]

/-- With recording and transcription succeeding, the request returns the
stripped transcript; the file system is restored. -/
lemma tm_ok (env : Env) (d : Nat) (fs : FS) (p t : String)
    (h : env.whichArecord = some p) (h2 : env.arecordExit = 0)
    (h3 : env.transcription = .ok t) :
    transcribe_microphone env d fs =
      (.ok (pyStrip t),
       [.createTempFile env.tempName, .runArecord (arecordArgs d env.tempName),
        .callTranscription, .unlinkTemp env.tempName], fs) := by
  simp [transcribe_microphone, record_audio_wav, pathUnlink, h, h2, h3,
    List.erase_cons_head]

/-! ## Claims -/

/-- C1: every voice request creates exactly one temporary audio file and
deletes it after the request completes, whether it succeeds or the recording
or transcription step raises; the deletion is idempotent (`missing_ok=True`),
so unlinking the already-removed file is not an error. -/
theorem claim_C1_temp_file_lifecycle (env : Env) (d : Nat) (fs : FS)
    (hfs : env.tempName ∉ fs) : tempFileContract env d fs := by
  have hrest : env.tempName ∉ fs → pathUnlink true env.tempName fs = .ok fs := by
    intro hn
    simp [pathUnlink, hn]
  cases h : env.whichArecord with
  | none =>
    rw [tempFileContract, tm_no_arecord env d fs h]
    refine ⟨?_, ?_, rfl, rfl, rfl, hfs, hrest hfs⟩ <;>
      simp [List.countP_cons, isCreateEvent, isUnlinkEvent]
  | some p =>
    by_cases h2 : env.arecordExit = 0
    · cases h3 : env.transcription with
      | error e =>
        rw [tempFileContract, tm_transcription_fail env d fs p e h h2 h3]
        refine ⟨?_, ?_, rfl, rfl, rfl, hfs, hrest hfs⟩ <;>
          simp [List.countP_cons, isCreateEvent, isUnlinkEvent]
      | ok t =>
        rw [tempFileContract, tm_ok env d fs p t h h2 h3]
        refine ⟨?_, ?_, rfl, rfl, rfl, hfs, hrest hfs⟩ <;>
          simp [List.countP_cons, isCreateEvent, isUnlinkEvent]
    · rw [tempFileContract, tm_capture_fail env d fs p h h2]
      refine ⟨?_, ?_, rfl, rfl, rfl, hfs, hrest hfs⟩ <;>
        simp [List.countP_cons, isCreateEvent, isUnlinkEvent]

/-- C1 witness: the contract at a concrete successful environment. -/
theorem claim_C1_temp_file_lifecycle_witness : tempFileContract envAllOk 5 [] :=
  claim_C1_temp_file_lifecycle envAllOk 5 [] (by simp)

/-- C3: when the transcription step raises, the voice pipeline (CLI mode `"2"`
and the GUI `speak` worker) fails with that transcription error and the chat
service is never called in that request. -/
theorem claim_C3_transcription_failure (env : Env) (fs : FS) (p : String)
    (e : PyExc) (h : env.whichArecord = some p) (h2 : env.arecordExit = 0)
    (h3 : env.transcription = .error e) :
    transcriptionFailContract env fs e := by
  have htm := tm_transcription_fail env env.recordSeconds fs p e h h2 h3
  refine ⟨?_, ?_, ?_⟩
  · simp [cliVoice, htm]
  · simp [cliVoice, htm, List.countP_cons, isChatEvent]
  · simp [speakAction, htm, List.countP_cons, isChatEvent]

/-- C3 witness: the contract at a concrete environment whose transcription
endpoint raises. -/
theorem claim_C3_transcription_failure_witness :
    transcriptionFailContract envTranscribeFail [] (.apiError "boom") :=
  claim_C3_transcription_failure envTranscribeFail [] "/usr/bin/arecord"
    (.apiError "boom") rfl rfl rfl

/-- C4: a voice request made while `arecord` is not discoverable fails with
the `RuntimeError` whose message carries the install guidance, and the failure
happens before any network call (no transcription and no chat event). -/
theorem claim_C4_dependency_missing (env : Env) (fs : FS)
    (h : env.whichArecord = none) : dependencyMissingContract env fs := by
  have htm := tm_no_arecord env env.recordSeconds fs h
  refine ⟨?_, ?_, ?_, rfl⟩
  · simp [cliVoice, htm]
  · simp [cliVoice, htm, List.countP_cons, isNetworkEvent]
  · simp [speakAction, htm, List.countP_cons, isNetworkEvent]

/-- C4 witness: the contract at a concrete environment without `arecord`. -/
theorem claim_C4_dependency_missing_witness :
    dependencyMissingContract envNoArecord [] :=
  claim_C4_dependency_missing envNoArecord [] rfl

/-- C2: for every non-empty prompt `P`, `ask_chatbot` makes exactly one chat
call, whose message list is exactly the fixed system-persona message followed
by the user message `P`; it returns the first choice's content trimmed of
surrounding whitespace, and the empty string when the first choice has no
content. -/
theorem claim_C2_ask_chatbot (env : Env) (P : String) (_hP : P ≠ "") :
    (ask_chatbot env P).2 = [Event.callChat (chatMessages P)] ∧
    chatMessages P = [⟨"system", systemPersona⟩, ⟨"user", P⟩] ∧
    (∀ s rest, env.chatResult = .ok (some s :: rest) →
       (ask_chatbot env P).1 = .ok (pyStrip s)) ∧
    (∀ rest, env.chatResult = .ok (none :: rest) →
       (ask_chatbot env P).1 = .ok "") := by
  refine ⟨?_, rfl, ?_, ?_⟩
  · unfold ask_chatbot
    cases h : env.chatResult with
    | error e => simp [h]
    | ok cs => cases cs <;> simp [h]
  · intro s rest h
    simp [ask_chatbot, h]
  · intro rest h
    simp [ask_chatbot, h]
    rfl

/-- C2 witness: instantiation at a concrete environment and prompt. -/
theorem claim_C2_ask_chatbot_witness :
    (ask_chatbot envAllOk "hello").2 = [Event.callChat (chatMessages "hello")] ∧
    (ask_chatbot envAllOk "hello").1 = .ok (pyStrip " hi ") := by
  have h := claim_C2_ask_chatbot envAllOk "hello" (by decide)
  exact ⟨h.1, h.2.2.1 " hi " [] rfl⟩

/-- C8: in the CLI text loop, a line whose stripped, lowercased form is an
exit keyword terminates the loop with no further chat call (no event at all),
and a line that strips to blank issues no chat call and re-prompts (the loop
continues exactly as on the remaining input). -/
theorem claim_C8_cli_text_loop (env : Env) (line : String) (rest : List String) :
    (pyLower (pyStrip line) ∈ exitKeywords →
       cliTextLoop env (line :: rest) = (.ok (), [])) ∧
    (pyStrip line = "" →
       cliTextLoop env (line :: rest) = cliTextLoop env rest) := by
  constructor
  · intro h
    simp [cliTextLoop, h]
  · intro h
    have h2 : pyLower "" ∉ exitKeywords := by decide
    simp [cliTextLoop, h, h2]

/-- C8 witness: `"QUIT"` exits the loop at once; a blank line re-prompts. -/
theorem claim_C8_cli_text_loop_witness :
    cliTextLoop envAllOk ["QUIT"] = (.ok (), []) ∧
    cliTextLoop envAllOk ["  ", "q"] = cliTextLoop envAllOk ["q"] :=
  ⟨(claim_C8_cli_text_loop envAllOk "QUIT" []).1 (by decide),
   (claim_C8_cli_text_loop envAllOk "  " ["q"]).2 (by decide)⟩

/-- C10: when recording succeeds and the transcript trims to the empty
string, the voice path (CLI mode `"2"` and the GUI `speak` worker) still calls
the chat service with the empty prompt, whereas the text paths filter blank
prompts before any chat call (the GUI `send_text` returns immediately on a
blank entry). -/
theorem claim_C10_empty_transcript (env : Env) (fs : FS) (p w : String)
    (h1 : env.whichArecord = some p) (h2 : env.arecordExit = 0)
    (h3 : env.transcription = .ok w) (h4 : pyStrip w = "") :
    Event.callChat (chatMessages "") ∈ (cliVoice env fs).2.1 ∧
    Event.callChat (chatMessages "") ∈ (speakAction env fs).2.1 ∧
    (∀ t, pyStrip t = "" → (sendTextAction env t).2 = []) := by
  have htm : transcribe_microphone env env.recordSeconds fs =
      (.ok "", Event.createTempFile env.tempName ::
        (arecordArgs env.recordSeconds env.tempName |> .runArecord) ::
        Event.callTranscription :: [.unlinkTemp env.tempName], fs) := by
    simp [transcribe_microphone, record_audio_wav, pathUnlink, h1, h2, h3, h4]
  refine ⟨?_, ?_, ?_⟩
  · simp [cliVoice, htm, ask_chatbot]
    cases h : env.chatResult with
    | error e => simp
    | ok cs => cases cs <;> simp
  · simp [speakAction, htm, ask_chatbot]
    cases h : env.chatResult with
    | error e => simp
    | ok cs => cases cs <;> simp
  · intro t ht
    simp [sendTextAction, ht]

/-- C10 witness: a whitespace-only transcript leads to a chat call with the
empty prompt on both voice paths. -/
theorem claim_C10_empty_transcript_witness :
    Event.callChat (chatMessages "") ∈ (cliVoice envEmptyTranscript []).2.1 ∧
    Event.callChat (chatMessages "") ∈ (speakAction envEmptyTranscript []).2.1 := by
  have h := claim_C10_empty_transcript envEmptyTranscript []
    "/usr/bin/arecord" "   " rfl rfl rfl (by decide)
  exact ⟨h.1, h.2.1⟩

/-! ## UI bracketing (`set_enabled`) -/

lemma runUI_cons (s : UIState) (e : UIEvent) (tr : List UIEvent) :
    runUI s (e :: tr) = runUI (applyUIEvent s e) tr := rfl

lemma runUI_append (s : UIState) (tr1 tr2 : List UIEvent) :
    runUI s (tr1 ++ tr2) = runUI (runUI s tr1) tr2 :=
  List.foldl_append ..

/-- A trace without `set_enabled` calls leaves the control state unchanged. -/
lemma runUI_no_set (tr : List UIEvent)
    (h : ∀ e ∈ tr, isSetEnabledEvent e = false) (s : UIState) :
    runUI s tr = s := by
  induction tr generalizing s with
  | nil => rfl
  | cons e tr ih =>
    have he := h e (by simp)
    have hs : applyUIEvent s e = s := by
      cases e <;> simp_all [applyUIEvent, isSetEnabledEvent]
    rw [runUI_cons, hs]
    exact ih (fun e2 h2 => h e2 (List.mem_cons_of_mem _ h2)) s

/-- Any trace of the bracketed shape satisfies `busyBracket`. -/
lemma busyBracket_intro (pre mid : List UIEvent)
    (hpre : ∀ e ∈ pre, isSetEnabledEvent e = false)
    (hmid : ∀ e ∈ mid, isSetEnabledEvent e = false) :
    busyBracket
      (pre ++ UIEvent.setEnabled false :: (mid ++ [UIEvent.setEnabled true])) := by
  refine ⟨pre, mid, rfl, hpre, hmid, ?_, ?_⟩
  · intro k hk
    have htake :
        (pre ++ UIEvent.setEnabled false ::
          (mid ++ [UIEvent.setEnabled true])).take (pre.length + 1 + k) =
          pre ++ UIEvent.setEnabled false :: mid.take k := by
      rw [List.take_append_eq_append_take]
      have h1 : pre.take (pre.length + 1 + k) = pre :=
        List.take_of_length_le (by omega)
      have h2 : pre.length + 1 + k - pre.length = k + 1 := by omega
      rw [h1, h2, List.take_succ_cons,
        List.take_append_of_le_length hk]
    rw [htake, runUI_append, runUI_no_set pre hpre, runUI_cons]
    have : applyUIEvent UIState.allEnabled (UIEvent.setEnabled false) =
        UIState.allDisabled := rfl
    rw [this]
    exact runUI_no_set _ (fun e he => hmid e (List.take_subset _ _ he)) _
  · have hshape :
        pre ++ UIEvent.setEnabled false :: (mid ++ [UIEvent.setEnabled true]) =
          (pre ++ UIEvent.setEnabled false :: mid) ++ [UIEvent.setEnabled true] := by
      simp
    rw [hshape, runUI_append]
    rfl

/-- C7: in the GUI, a `send_text` request on a non-blank entry and every
`speak` request disable the entry, the send button and the speak button
together before the worker runs, keep them disabled while the request is in
flight, and re-enable all three as the final scheduled UI action, whether the
worker succeeds or raises. -/
theorem claim_C7_controls_bracketing (env : Env) (entryText : String) (fs : FS) :
    (pyStrip entryText ≠ "" → busyBracket (sendTextAction env entryText).1) ∧
    busyBracket (speakAction env fs).1 := by
  constructor
  · intro h
    rcases hc : ask_chatbot env (pyStrip entryText) with ⟨r, evs⟩
    cases r with
    | ok reply =>
      have hshape : (sendTextAction env entryText).1 =
          [UIEvent.appendLine ("You: " ++ pyStrip entryText), .clearEntry] ++
            UIEvent.setEnabled false ::
              ([UIEvent.appendLine ("BMO: " ++ reply ++ "\n")] ++
                [UIEvent.setEnabled true]) := by
        simp [sendTextAction, h, hc]
      rw [hshape]
      exact busyBracket_intro _ _ (by simp [isSetEnabledEvent])
        (by simp [isSetEnabledEvent])
    | error e =>
      have hshape : (sendTextAction env entryText).1 =
          [UIEvent.appendLine ("You: " ++ pyStrip entryText), .clearEntry] ++
            UIEvent.setEnabled false ::
              ([UIEvent.appendLine ("Error: " ++ e.str ++ "\n")] ++
                [UIEvent.setEnabled true]) := by
        simp [sendTextAction, h, hc]
      rw [hshape]
      exact busyBracket_intro _ _ (by simp [isSetEnabledEvent])
        (by simp [isSetEnabledEvent])
  · rcases htm : transcribe_microphone env env.recordSeconds fs with ⟨r, evs, fs1⟩
    cases r with
    | error e =>
      have hshape : (speakAction env fs).1 =
          [] ++ UIEvent.setEnabled false ::
            ([UIEvent.appendLine "BMO: Recording...",
              UIEvent.appendLine ("Error: " ++ e.str ++ "\n")] ++
              [UIEvent.setEnabled true]) := by
        simp [speakAction, htm]
      rw [hshape]
      exact busyBracket_intro _ _ (by simp) (by simp [isSetEnabledEvent])
    | ok spoken =>
      rcases hc : ask_chatbot env spoken with ⟨r2, evs2⟩
      cases r2 with
      | error e =>
        have hshape : (speakAction env fs).1 =
            [] ++ UIEvent.setEnabled false ::
              ([UIEvent.appendLine "BMO: Recording...",
                UIEvent.appendLine ("You (speech): " ++ spoken),
                UIEvent.appendLine ("Error: " ++ e.str ++ "\n")] ++
                [UIEvent.setEnabled true]) := by
          simp [speakAction, htm, hc]
        rw [hshape]
        exact busyBracket_intro _ _ (by simp) (by simp [isSetEnabledEvent])
      | ok reply =>
        have hshape : (speakAction env fs).1 =
            [] ++ UIEvent.setEnabled false ::
              ([UIEvent.appendLine "BMO: Recording...",
                UIEvent.appendLine ("You (speech): " ++ spoken),
                UIEvent.appendLine ("BMO: " ++ reply ++ "\n")] ++
                [UIEvent.setEnabled true]) := by
          simp [speakAction, htm, hc]
        rw [hshape]
        exact busyBracket_intro _ _ (by simp) (by simp [isSetEnabledEvent])

/-- C7 witness: the bracketing at a concrete environment and entry text. -/
theorem claim_C7_controls_bracketing_witness :
    busyBracket (sendTextAction envAllOk "hello").1 ∧
    busyBracket (speakAction envAllOk []).1 :=
  ⟨(claim_C7_controls_bracketing envAllOk "hello" []).1 (by decide),
   (claim_C7_controls_bracketing envAllOk "hello" []).2⟩

/-- C5 counterexample: the code adds no wrapper naming the failed stage.  A
run whose transcription call raises `apiError "boom"` and a run whose chat
call raises `apiError "boom"` surface the *identical* error value, so the
reported error carries no indication of which stage failed, contradicting the
claim's "wrapped with an indication of which stage failed". -/
theorem claim_C5_counterexample :
    (cliVoice envTranscribeFail []).1 = .error (.apiError "boom") ∧
    (cliVoice envChatFail []).1 = .error (.apiError "boom") ∧
    envTranscribeFail.transcription = .error (.apiError "boom") ∧
    envTranscribeFail.chatResult = .ok [some "y"] ∧
    envChatFail.transcription = .ok "hi" ∧
    envChatFail.chatResult = .error (.apiError "boom") := by
  refine ⟨?_, ?_, rfl, rfl, rfl, rfl⟩ <;> rfl

/-- C5 amended: no stage is retried — each external call (recorder,
transcription, chat) happens at most once per voice request — and the first
error aborts the whole pipeline and is reported upward unchanged: it is
exactly the exception the failing call raised, with no wrapper naming the
stage. -/
theorem claim_C5_no_retry_unchanged (env : Env) (fs : FS) :
    noRetryUnchangedError env fs := by
  cases h : env.whichArecord with
  | none =>
    have htm := tm_no_arecord env env.recordSeconds fs h
    refine ⟨?_, ?_, ?_, ?_⟩
    · simp [cliVoice, htm, List.countP_cons, isArecordEvent]
    · simp [cliVoice, htm, List.countP_cons, isTranscriptionEvent]
    · simp [cliVoice, htm, List.countP_cons, isChatEvent]
    · intro e he
      simp [cliVoice, htm] at he
      exact Or.inl ⟨h, he.symm⟩
  | some p =>
    by_cases h2 : env.arecordExit = 0
    · cases h3 : env.transcription with
      | error e0 =>
        have htm := tm_transcription_fail env env.recordSeconds fs p e0 h h2 h3
        refine ⟨?_, ?_, ?_, ?_⟩
        · simp [cliVoice, htm, List.countP_cons, isArecordEvent]
        · simp [cliVoice, htm, List.countP_cons, isTranscriptionEvent]
        · simp [cliVoice, htm, List.countP_cons, isChatEvent]
        · intro e he
          simp [cliVoice, htm] at he
          exact Or.inr (Or.inr (Or.inl (he ▸ h3)))
      | ok t =>
        have htm := tm_ok env env.recordSeconds fs p t h h2 h3
        cases hc : env.chatResult with
        | error e1 =>
          refine ⟨?_, ?_, ?_, ?_⟩
          · simp [cliVoice, htm, ask_chatbot, hc, List.countP_cons, isArecordEvent]
          · simp [cliVoice, htm, ask_chatbot, hc, List.countP_cons,
              isTranscriptionEvent]
          · simp [cliVoice, htm, ask_chatbot, hc, List.countP_cons, isChatEvent]
          · intro e he
            simp [cliVoice, htm, ask_chatbot, hc] at he
            exact Or.inr (Or.inr (Or.inr (Or.inl (he ▸ hc))))
        | ok cs =>
          cases cs with
          | nil =>
            refine ⟨?_, ?_, ?_, ?_⟩
            · simp [cliVoice, htm, ask_chatbot, hc, List.countP_cons,
                isArecordEvent]
            · simp [cliVoice, htm, ask_chatbot, hc, List.countP_cons,
                isTranscriptionEvent]
            · simp [cliVoice, htm, ask_chatbot, hc, List.countP_cons, isChatEvent]
            · intro e he
              simp [cliVoice, htm, ask_chatbot, hc] at he
              exact Or.inr (Or.inr (Or.inr (Or.inr ⟨hc, he.symm⟩)))
          | cons c cs2 =>
            refine ⟨?_, ?_, ?_, ?_⟩
            · simp [cliVoice, htm, ask_chatbot, hc, List.countP_cons,
                isArecordEvent]
            · simp [cliVoice, htm, ask_chatbot, hc, List.countP_cons,
                isTranscriptionEvent]
            · simp [cliVoice, htm, ask_chatbot, hc, List.countP_cons, isChatEvent]
            · intro e he
              simp [cliVoice, htm, ask_chatbot, hc] at he
    · have htm := tm_capture_fail env env.recordSeconds fs p h h2
      refine ⟨?_, ?_, ?_, ?_⟩
      · simp [cliVoice, htm, List.countP_cons, isArecordEvent]
      · simp [cliVoice, htm, List.countP_cons, isTranscriptionEvent]
      · simp [cliVoice, htm, List.countP_cons, isChatEvent]
      · intro e he
        simp [cliVoice, htm] at he
        exact Or.inr (Or.inl he.symm)

/-- C5 amended witness: the no-retry/unchanged-error facts at a concrete
failing environment. -/
theorem claim_C5_no_retry_unchanged_witness :
    errorUnchanged envTranscribeFail (.apiError "boom") :=
  (claim_C5_no_retry_unchanged envTranscribeFail []).2.2.2 (.apiError "boom") rfl

/-- C6 counterexample: in the interactive loop a per-request chat error is
*not* caught at the front-end boundary: `run_cli` has no handler, the raw
exception escapes it, and the process terminates with a non-zero status,
contradicting the claim for the CLI front-end. -/
theorem claim_C6_counterexample :
    (run_cli envChatFail ["1", "hi"] []).1 = .error (.apiError "boom") ∧
    pythonExitCode (run_cli envChatFail ["1", "hi"] []).1 = 1 := by
  constructor <;> rfl

/-- C6 amended: in the windowed front-end every per-request error is caught
inside the background worker and rendered as an `Error:` log line with the
controls re-enabled afterwards (the window survives); in the interactive loop
per-request errors are not caught — they propagate out of `run_cli` unchanged
and terminate the process with a non-zero status. -/
theorem claim_C6_error_boundaries (env : Env) (fs : FS) (entryText : String)
    (e : PyExc) :
    (env.chatResult = .error e → pyStrip entryText ≠ "" →
       UIEvent.appendLine ("Error: " ++ e.str ++ "\n") ∈
         (sendTextAction env entryText).1 ∧
       (sendTextAction env entryText).1.getLast? =
         some (.setEnabled true)) ∧
    ((transcribe_microphone env env.recordSeconds fs).1 = .error e →
       UIEvent.appendLine ("Error: " ++ e.str ++ "\n") ∈ (speakAction env fs).1 ∧
       (speakAction env fs).1.getLast? = some (.setEnabled true)) ∧
    (∀ s, (transcribe_microphone env env.recordSeconds fs).1 = .ok s →
       env.chatResult = .error e →
       UIEvent.appendLine ("Error: " ++ e.str ++ "\n") ∈ (speakAction env fs).1 ∧
       (speakAction env fs).1.getLast? = some (.setEnabled true)) ∧
    (∀ lines e2, (cliTextLoop env lines).1 = .error e2 →
       (run_cli env ("1" :: lines) fs).1 = .error e2 ∧
       pythonExitCode (run_cli env ("1" :: lines) fs).1 = 1) := by
  have h1 : pyStrip "1" = "1" := by decide
  refine ⟨?_, ?_, ?_, ?_⟩
  · intro hc hne
    have hshape : (sendTextAction env entryText).1 =
        [UIEvent.appendLine ("You: " ++ pyStrip entryText), .clearEntry,
         .setEnabled false, .appendLine ("Error: " ++ e.str ++ "\n"),
         .setEnabled true] := by
      simp [sendTextAction, hne, ask_chatbot, hc]
    rw [hshape]
    exact ⟨by simp, rfl⟩
  · intro htm1
    rcases htm : transcribe_microphone env env.recordSeconds fs with ⟨r, evs, fs1⟩
    rw [htm] at htm1
    simp only at htm1
    subst htm1
    have hshape : (speakAction env fs).1 =
        [UIEvent.setEnabled false, .appendLine "BMO: Recording...",
         .appendLine ("Error: " ++ e.str ++ "\n"), .setEnabled true] := by
      simp [speakAction, htm]
    rw [hshape]
    exact ⟨by simp, rfl⟩
  · intro s htm1 hc
    rcases htm : transcribe_microphone env env.recordSeconds fs with ⟨r, evs, fs1⟩
    rw [htm] at htm1
    simp only at htm1
    subst htm1
    have hshape : (speakAction env fs).1 =
        [UIEvent.setEnabled false, .appendLine "BMO: Recording...",
         .appendLine ("You (speech): " ++ s),
         .appendLine ("Error: " ++ e.str ++ "\n"), .setEnabled true] := by
      simp [speakAction, htm, ask_chatbot, hc]
    rw [hshape]
    exact ⟨by simp, rfl⟩
  · intro lines e2 hl
    rcases hcl : cliTextLoop env lines with ⟨r, evs⟩
    rw [hcl] at hl
    simp only at hl
    subst hl
    constructor
    · simp [run_cli, h1, hcl]
    · simp [run_cli, h1, hcl, pythonExitCode]

/-- C6 amended witness: the GUI renders a concrete chat error and the CLI
lets the same error escape. -/
theorem claim_C6_error_boundaries_witness :
    (UIEvent.appendLine ("Error: " ++ (PyExc.apiError "boom").str ++ "\n") ∈
       (sendTextAction envChatFail "hi").1 ∧
     (sendTextAction envChatFail "hi").1.getLast? =
       some (.setEnabled true)) ∧
    ((run_cli envChatFail ["1", "hi"] []).1 = .error (.apiError "boom") ∧
     pythonExitCode (run_cli envChatFail ["1", "hi"] []).1 = 1) := by
  have h := claim_C6_error_boundaries envChatFail [] "hi" (.apiError "boom")
  exact ⟨h.1 rfl (by decide), h.2.2.2 ["hi"] (.apiError "boom") rfl⟩

/-- C9 counterexample: at end-of-input the interactive loop does not exit
cleanly — `input()` raises `EOFError`, which no layer catches, so the process
terminates with a non-zero status, contradicting "in both cases the process
terminates with a success (zero) exit status". -/
theorem claim_C9_counterexample :
    (run_cli envAllOk ["1"] []).1 = .error .eofError ∧
    pythonExitCode (run_cli envAllOk ["1"] []).1 = 1 := by
  constructor <;> rfl

/-- C9 amended: the interactive loop returns cleanly on an exit keyword, and
the process then terminates with a zero status; at end-of-input, however, the
loop terminates by an uncaught `EOFError` and the process exits with a
non-zero status. -/
theorem claim_C9_exit_status (env : Env) (fs : FS) (line : String)
    (rest : List String) :
    (pyLower (pyStrip line) ∈ exitKeywords →
       (run_cli env ("1" :: line :: rest) fs).1 = .ok () ∧
       pythonExitCode (run_cli env ("1" :: line :: rest) fs).1 = 0) ∧
    (cliTextLoop env []).1 = .error .eofError ∧
    (run_cli env ["1"] fs).1 = .error .eofError ∧
    pythonExitCode (run_cli env ["1"] fs).1 = 1 := by
  have h1 : pyStrip "1" = "1" := by decide
  refine ⟨?_, rfl, ?_, ?_⟩
  · intro hkw
    constructor
    · simp [run_cli, h1, cliTextLoop, hkw]
    · simp [run_cli, h1, cliTextLoop, hkw, pythonExitCode]
  · simp [run_cli, h1, cliTextLoop]
  · simp [run_cli, h1, cliTextLoop, pythonExitCode]

/-- C9 amended witness: `quit` exits with status 0 at a concrete
environment. -/
theorem claim_C9_exit_status_witness :
    (run_cli envAllOk ["1", "quit"] []).1 = .ok () ∧
    pythonExitCode (run_cli envAllOk ["1", "quit"] []).1 = 0 :=
  (claim_C9_exit_status envAllOk [] "quit" []).1 (by decide)

end BMO
